import Mathlib

/-!
Verification of the password strength meter (`src/password_generator.py`).

The file shallowly embeds the two pure cores of the program:

* `check_password_strength` (lines 6-95): scores a password and returns the
  normalized score, strength label, message, feedback list, per-criterion
  status and a color tag.
* `generate_strong_password` (lines 97-127) and the inline no-special-character
  generation path of `main` (lines 218-232): random password generation.

Modelling conventions:

* A Python `str` is a `List Char`; character classes (`[A-Z]`, `[a-z]`, `\d`,
  `[!@#$%^&*]`) and `str.lower()` are modelled at ASCII granularity, matching
  their behaviour on all ASCII input.
* The Python score is a float taking values in half-integer steps
  (`+1`, `+0.5`, `-0.5`); it is represented exactly as an integer number of
  half points (`score2` below is twice the Python score, so float `4.0` is
  `score2 = 8`).  All float arithmetic the code performs is exact on these
  values.
* The random source is universally quantified: an outcome of
  `generate_strong_password` is any choice of the four seeded characters from
  their pools, any fill drawn from the union pool, and any permutation
  produced by `random.shuffle`.
-/

namespace PasswordMeter

/-- `string.ascii_lowercase` (line 105). -/
def ascii_lowercase : List Char := "abcdefghijklmnopqrstuvwxyz".toList

/-- `string.ascii_uppercase` (line 106). -/
def ascii_uppercase : List Char := "ABCDEFGHIJKLMNOPQRSTUVWXYZ".toList

/-- `string.digits` (line 107). -/
def ascii_digits : List Char := "0123456789".toList

/-- The fixed special-character set `"!@#$%^&*"` (line 108, also the regex
character class on line 44). -/
def special_chars : List Char := "!@#$%^&*".toList

/-- ASCII `str.lower()` on a single character. -/
def pyToLower (c : Char) : Char :=
  if 'A' ≤ c ∧ c ≤ 'Z' then Char.ofNat (c.toNat + 32) else c

/-- `password.lower()` (lines 55 and 68). -/
def lowerStr (p : List Char) : List Char := p.map pyToLower

/-- `re.search(r"[A-Z]", password)` (line 28). -/
def hasUpper (p : List Char) : Bool := p.any fun c => decide ('A' ≤ c) && decide (c ≤ 'Z')

/-- `re.search(r"[a-z]", password)` (line 28). -/
def hasLower (p : List Char) : Bool := p.any fun c => decide ('a' ≤ c) && decide (c ≤ 'z')

/-- `re.search(r"\d", password)` (line 36). -/
def hasDigit (p : List Char) : Bool := p.any fun c => decide ('0' ≤ c) && decide (c ≤ '9')

/-- `re.search(r"[!@#$%^&*]", password)` (line 44). -/
def hasSpecial (p : List Char) : Bool := p.any fun c => special_chars.contains c

/-- `w` matches at the head of `p` (anchored literal-string match). -/
def matchHere : List Char → List Char → Bool
  | [], _ => true
  | _ :: _, [] => false
  | a :: w, b :: p => a == b && matchHere w p

/-- `re.search` with a literal string `w`: `w` occurs contiguously in `p`. -/
def occursIn (w : List Char) : List Char → Bool
  | [] => matchHere w []
  | c :: p => matchHere w (c :: p) || occursIn w (p)

/-- The literal alternatives of the sequential-pattern regex (line 55). -/
def seq_patterns : List (List Char) :=
  ["abc", "bcd", "cde", "def", "efg", "fgh", "ghi", "hij", "ijk", "jkl", "klm",
   "lmn", "mno", "nop", "opq", "pqr", "qrs", "rst", "stu", "tuv", "uvw", "vwx",
   "wxy", "xyz", "012", "123", "234", "345", "456", "567", "678", "789",
   "890"].map String.toList

/-- Line 55: the sequential-pattern regex fires on `password.lower()`. -/
def hasSequential (p : List Char) : Bool :=
  seq_patterns.any fun w => occursIn w (lowerStr p)

/-- Line 61: `re.search(r'(.)\1{2,}', password)` — some character occurs three
(or more) times consecutively. -/
def hasRepeated : List Char → Bool
  | a :: b :: c :: rest => (a == b && b == c) || hasRepeated (b :: c :: rest)
  | _ => false

/-- The fixed common-password list (line 67). -/
def common_passwords : List (List Char) :=
  ["password", "123456", "qwerty", "admin", "welcome",
   "password123"].map String.toList

/-- `password.lower() in common_passwords` (line 68). -/
def is_common (p : List Char) : Bool := common_passwords.contains (lowerStr p)

/-- The feedback string of line 22. -/
def msg_len_12 : String :=
  "❌ Password should ideally be at least 12 characters long for better security."

/-- The feedback string of line 25. -/
def msg_len_8 : String := "❌ Password must be at least 8 characters long."

/-- The feedback string of line 33. -/
def msg_case : String := "❌ Include both uppercase and lowercase letters."

/-- The feedback string of line 41. -/
def msg_digit : String := "❌ Add at least one number (0-9)."

/-- The feedback string of line 49. -/
def msg_special : String := "❌ Include at least one special character (!@#$%^&*)."

/-- The feedback string of line 56. -/
def msg_sequential : String :=
  "❌ Avoid sequential characters like \x27abc\x27, \x27123\x27, etc."

/-- The feedback string of line 62. -/
def msg_repeated : String := "❌ Avoid repeating the same character more than twice."

/-- The feedback string of line 69. -/
def msg_common : String := "❌ This is a commonly used password and very insecure."

/-- The success message of line 84. -/
def msg_strong : String := "✅ Strong Password! Your password meets all security criteria."

/-- The warning message of line 88. -/
def msg_moderate : String :=
  "⚠️ Moderate Password - Consider improving using the suggestions below."

/-- The error message of line 92. -/
def msg_weak : String := "❌ Weak Password - Please improve it using the suggestions below."

/-- The tri-state value stored in `checks["length"]`: Python `True`,
`"Partial"`, `False` (lines 18, 21, 24). -/
inductive CheckStatus where
  | pass : CheckStatus
  | half : CheckStatus
  | fail : CheckStatus
deriving DecidableEq, Repr

/-- The length-check contribution to the score, in half points
(lines 16-20: `+1` when `len >= 12`, `+0.5` when `len >= 8`, else `+0`). -/
def length_score2 (p : List Char) : Int :=
  if 12 ≤ p.length then 2 else if 8 ≤ p.length then 1 else 0

/-- `checks["length"]` (lines 18, 21, 24). -/
def length_status (p : List Char) : CheckStatus :=
  if 12 ≤ p.length then .pass else if 8 ≤ p.length then .half else .fail

/-- The case-mix condition of line 28. -/
def case_ok (p : List Char) : Bool := hasUpper p && hasLower p

/-- The score accumulated by lines 11-64, before the common-password override,
in half points: `+1 → +2`, `+0.5 → +1`, `-0.5 → -1`. -/
def score2_before_common (p : List Char) : Int :=
  length_score2 p
    + (if case_ok p then 2 else 0)
    + (if hasDigit p then 2 else 0)
    + (if hasSpecial p then 2 else 0)
    - (if hasSequential p then 1 else 0)
    - (if hasRepeated p then 1 else 0)

/-- The score after line 70 (`score = 0` when the password is common), in half
points. -/
def raw_score2 (p : List Char) : Int :=
  if is_common p then 0 else score2_before_common p

/-- The score after line 76 (`score = max(0, score)`), in half points. -/
def clamped_score2 (p : List Char) : Int := max 0 (raw_score2 p)

/-- Line 79: `min(int(score * 25), 100)`.  With `score = clamped_score2 / 2`
and `clamped_score2 ≥ 0`, Python `int()` truncation equals floor, which is
`Nat` division here. -/
def normalized_of (p : List Char) : Nat :=
  min ((clamped_score2 p).toNat * 25 / 2) 100

/-- Lines 82-93: the strength label, from the clamped raw score
(`score >= 4` is `8 ≤ score2`, `score >= 3` is `6 ≤ score2`). -/
def strength_of (p : List Char) : String :=
  if 8 ≤ clamped_score2 p then "Strong"
  else if 6 ≤ clamped_score2 p then "Moderate"
  else "Weak"

/-- Lines 82-93: the summary message. -/
def message_of (p : List Char) : String :=
  if 8 ≤ clamped_score2 p then msg_strong
  else if 6 ≤ clamped_score2 p then msg_moderate
  else msg_weak

/-- Lines 82-93: the color tag. -/
def color_of (p : List Char) : String :=
  if 8 ≤ clamped_score2 p then "green"
  else if 6 ≤ clamped_score2 p then "orange"
  else "red"

/-- The feedback list, in the order the code appends
(length, case, digit, special, sequential, repeated, common). -/
def feedback_of (p : List Char) : List String :=
  (if 12 ≤ p.length then [] else if 8 ≤ p.length then [msg_len_12] else [msg_len_8])
    ++ (if case_ok p then [] else [msg_case])
    ++ (if hasDigit p then [] else [msg_digit])
    ++ (if hasSpecial p then [] else [msg_special])
    ++ (if hasSequential p then [msg_sequential] else [])
    ++ (if hasRepeated p then [msg_repeated] else [])
    ++ (if is_common p then [msg_common] else [])

/-- The six values returned by `check_password_strength` (line 95), with the
`checks` dict flattened into one field per key. -/
structure CheckResult where
  normalized_score : Nat
  strength : String
  message : String
  feedback : List String
  length_check : CheckStatus
  case_check : Bool
  digit_check : Bool
  special_check : Bool
  no_patterns : Bool
  not_common : Bool
  color : String
deriving DecidableEq, Repr

/-- `check_password_strength` (lines 6-95). -/
def check_password_strength (p : List Char) : CheckResult :=
  { normalized_score := normalized_of p
    strength := strength_of p
    message := message_of p
    feedback := feedback_of p
    length_check := length_status p
    case_check := case_ok p
    digit_check := hasDigit p
    special_check := hasSpecial p
    no_patterns := !(hasSequential p || hasRepeated p)
    not_common := !(is_common p)
    color := color_of p }

/-! ## The generator (lines 97-127, and the no-special path of lines 218-232) -/

/-- Lines 101-102: `if length < 8: length = 12`. -/
def clamp_length (length : Int) : Int := if length < 8 then 12 else length

/-- `all_chars` of line 120. -/
def all_chars : List Char :=
  ascii_lowercase ++ ascii_uppercase ++ ascii_digits ++ special_chars

/-- `all_chars` of line 221 (no special characters). -/
def all_chars_nospecial : List Char :=
  ascii_lowercase ++ ascii_uppercase ++ ascii_digits

/-- One possible outcome of `generate_strong_password length` (lines 97-127):
`c1`-`c4` are the seeded `random.choice` draws (lines 111-116), `fill` the
`remaining_length = length - 4` further draws from `all_chars`
(lines 119-121; Python `range` of a negative number is empty, hence `toNat`),
and `out` the result of `random.shuffle` (line 124), an arbitrary permutation
of the seeded list. -/
@[reducible] def gen_outcome (length : Int) (c1 c2 c3 c4 : Char) (fill out : List Char) : Prop :=
  c1 ∈ ascii_lowercase ∧ c2 ∈ ascii_uppercase ∧ c3 ∈ ascii_digits ∧
    c4 ∈ special_chars ∧
    fill.length = (clamp_length length - 4).toNat ∧
    (∀ c ∈ fill, c ∈ all_chars) ∧
    List.Perm out ([c1, c2, c3, c4] ++ fill)

/-- One possible outcome of the inline no-special generation in `main`
(lines 218-232): three seeded draws, `remaining_length = length - 3` fill
draws, a final shuffle — and no length clamp. -/
@[reducible] def gen_nospecial_outcome (length : Int) (c1 c2 c3 : Char) (fill out : List Char) : Prop :=
  c1 ∈ ascii_lowercase ∧ c2 ∈ ascii_uppercase ∧ c3 ∈ ascii_digits ∧
    fill.length = (length - 3).toNat ∧
    (∀ c ∈ fill, c ∈ all_chars_nospecial) ∧
    List.Perm out ([c1, c2, c3] ++ fill)

/-- Spec-side description of the letter windows: the 3-letter ascending
alphabet windows, `abc` (start 97 = `a`) through `xyz` (start 120 = `x`).
Written from the spec wording, to be compared with the hand-enumerated
`seq_patterns` of the source. -/
def ascending_letter_windows : List (List Char) :=
  (List.range 24).map fun i =>
    [Char.ofNat (97 + i), Char.ofNat (97 + i + 1), Char.ofNat (97 + i + 2)]

/-- Spec-side description of the digit windows: the 3-digit ascending windows
`012` through `890`, wrapping at `8, 9, 0` (digit `d` is character 48 + d).
Written from the spec wording, to be compared with the hand-enumerated
`seq_patterns` of the source. -/
def ascending_digit_windows : List (List Char) :=
  (List.range 9).map fun i =>
    [Char.ofNat (48 + i), Char.ofNat (48 + (i + 1) % 10), Char.ofNat (48 + (i + 2) % 10)]

/-! ## Helper lemmas -/

/-- Anchored match characterisation: `matchHere w p` holds exactly when `w` is
an initial segment of `p`. -/
theorem matchHere_iff (w p : List Char) : matchHere w p = true ↔ ∃ r, p = w ++ r := by
  induction w generalizing p with
  | nil => simp [matchHere]
  | cons a w ih =>
    cases p with
    | nil =>
      simp [matchHere]
    | cons b p =>
      simp only [matchHere, Bool.and_eq_true, beq_iff_eq, ih, List.cons_append,
        List.cons.injEq]
      constructor
      · rintro ⟨rfl, r, rfl⟩
        exact ⟨r, rfl, rfl⟩
      · rintro ⟨r, rfl, rfl⟩
        exact ⟨rfl, r, rfl⟩

/-- `re.search` characterisation: `occursIn w p` holds exactly when `w` occurs
contiguously somewhere in `p`. -/
theorem occursIn_iff (w p : List Char) : occursIn w p = true ↔ ∃ l r, p = l ++ w ++ r := by
  induction p with
  | nil =>
    simp only [occursIn, matchHere_iff]
    constructor
    · rintro ⟨r, hr⟩
      exact ⟨[], r, by simpa using hr⟩
    · rintro ⟨l, r, hr⟩
      have h := congrArg List.length hr
      simp only [List.length_nil, List.length_append] at h
      exact ⟨[], by simp [List.length_eq_zero.mp (show w.length = 0 by omega)]⟩
  | cons c p ih =>
    simp only [occursIn, Bool.or_eq_true, matchHere_iff, ih]
    constructor
    · rintro (⟨r, hr⟩ | ⟨l, r, rfl⟩)
      · exact ⟨[], r, by simpa using hr⟩
      · exact ⟨c :: l, r, rfl⟩
    · rintro ⟨l, r, hr⟩
      cases l with
      | nil => exact Or.inl ⟨r, by simpa using hr⟩
      | cons x l =>
        rcases List.cons.injEq .. ▸ hr with ⟨rfl, htail⟩
        exact Or.inr ⟨l, r, htail⟩

/-- The repeated-character regex fires exactly when some character occurs three
times in a row, i.e. `[c, c, c]` occurs contiguously in `p`. -/
theorem hasRepeated_iff (p : List Char) :
    hasRepeated p = true ↔ ∃ c l r, p = l ++ [c, c, c] ++ r := by
  induction p with
  | nil =>
    simp only [hasRepeated, Bool.false_eq_true, false_iff]
    rintro ⟨c, l, r, h⟩
    have := congrArg List.length h
    simp [List.length_append] at this
    omega
  | cons x p ih =>
    cases p with
    | nil =>
      simp only [hasRepeated, Bool.false_eq_true, false_iff]
      rintro ⟨c, l, r, h⟩
      have := congrArg List.length h
      simp [List.length_append] at this
      omega
    | cons y q =>
      cases q with
      | nil =>
        simp only [hasRepeated, Bool.false_eq_true, false_iff]
        rintro ⟨c, l, r, h⟩
        have := congrArg List.length h
        simp [List.length_append] at this
        omega
      | cons z t =>
        simp only [hasRepeated, Bool.or_eq_true, Bool.and_eq_true, beq_iff_eq, ih]
        constructor
        · rintro (⟨rfl, rfl⟩ | ⟨c, l, r, hr⟩)
          · exact ⟨x, [], t, rfl⟩
          · exact ⟨c, x :: l, r, by simp [hr]⟩
        · rintro ⟨c, l, r, hr⟩
          cases l with
          | nil =>
            rcases List.cons.injEq .. ▸ hr with ⟨rfl, h2⟩
            rcases List.cons.injEq .. ▸ h2 with ⟨rfl, h3⟩
            rcases List.cons.injEq .. ▸ h3 with ⟨rfl, _⟩
            exact Or.inl ⟨rfl, rfl⟩
          | cons w l =>
            rcases List.cons.injEq .. ▸ hr with ⟨rfl, h2⟩
            exact Or.inr ⟨c, l, r, h2⟩

/-- Range of the pre-override score (in half points): `-1.0 ≤ score ≤ 4.0`. -/
theorem score2_before_common_bounds (p : List Char) :
    -2 ≤ score2_before_common p ∧ score2_before_common p ≤ 8 := by
  unfold score2_before_common length_score2
  split_ifs <;> omega

/-- Range of the raw score after the common-password override. -/
theorem raw_score2_bounds (p : List Char) :
    -2 ≤ raw_score2 p ∧ raw_score2 p ≤ 8 := by
  have h := score2_before_common_bounds p
  unfold raw_score2
  split_ifs <;> omega

/-- Range of the clamped score: `0 ≤ score ≤ 4.0`. -/
theorem clamped_score2_bounds (p : List Char) :
    0 ≤ clamped_score2 p ∧ clamped_score2 p ≤ 8 := by
  have h := raw_score2_bounds p
  unfold clamped_score2
  omega

/-- Membership in the feedback list, characterised by the checks that append
each message, and emptiness of the feedback list. -/
theorem feedback_facts (p : List Char) :
    (msg_sequential ∈ feedback_of p ↔ hasSequential p = true) ∧
    (msg_repeated ∈ feedback_of p ↔ hasRepeated p = true) ∧
    (msg_common ∈ feedback_of p ↔ is_common p = true) ∧
    (feedback_of p = [] ↔
      (12 ≤ p.length ∧ case_ok p = true ∧ hasDigit p = true ∧ hasSpecial p = true ∧
       hasSequential p = false ∧ hasRepeated p = false ∧ is_common p = false)) := by
  unfold feedback_of
  split_ifs <;>
    simp_all [msg_len_12, msg_len_8, msg_case, msg_digit, msg_special,
      msg_sequential, msg_repeated, msg_common]

/-- The clamped score reaches the maximum `4.0` (half points: `8`) exactly when
every check passes in full. -/
theorem clamped_top_iff (p : List Char) :
    clamped_score2 p = 8 ↔
      (12 ≤ p.length ∧ case_ok p = true ∧ hasDigit p = true ∧ hasSpecial p = true ∧
       hasSequential p = false ∧ hasRepeated p = false ∧ is_common p = false) := by
  unfold clamped_score2 raw_score2 score2_before_common length_score2
  split_ifs <;> simp_all

/-- The strength label is `"Strong"` exactly when the clamped score is at
least `4.0` (half points: `8`). -/
theorem strength_strong_iff (p : List Char) :
    strength_of p = "Strong" ↔ 8 ≤ clamped_score2 p := by
  unfold strength_of
  split_ifs <;> simp_all

/-- The normalized score is `100` exactly when the clamped score is the
maximum. -/
theorem normalized_100_iff (p : List Char) :
    normalized_of p = 100 ↔ clamped_score2 p = 8 := by
  have h := clamped_score2_bounds p
  unfold normalized_of
  omega

/-- Every character of the lowercase pool satisfies the `[a-z]` test. -/
theorem lower_pool_ok :
    ∀ c ∈ ascii_lowercase, (decide ('a' ≤ c) && decide (c ≤ 'z')) = true := by decide

/-- Every character of the uppercase pool satisfies the `[A-Z]` test. -/
theorem upper_pool_ok :
    ∀ c ∈ ascii_uppercase, (decide ('A' ≤ c) && decide (c ≤ 'Z')) = true := by decide

/-- Every character of the digit pool satisfies the `\d` test. -/
theorem digit_pool_ok :
    ∀ c ∈ ascii_digits, (decide ('0' ≤ c) && decide (c ≤ '9')) = true := by decide

/-- Every character of the special pool satisfies the `[!@#$%^&*]` test. -/
theorem special_pool_ok :
    ∀ c ∈ special_chars, special_chars.contains c = true := by decide

/-- Special characters are unchanged by `str.lower()`. -/
theorem special_lower_fixed : ∀ c ∈ special_chars, pyToLower c = c := by decide

/-- No common password contains a special character. -/
theorem special_not_in_common :
    ∀ c ∈ special_chars, ∀ w ∈ common_passwords, c ∉ w := by decide

/-- Sanity: the sequential-window check fires on the spec test vector
`"Abc12345"` (the window `abc` occurs in the lower-casing). -/
theorem sanity_sequential_Abc12345 : hasSequential "Abc12345".toList = true := by decide

/-- Sanity: substring search finds an inner occurrence. -/
theorem sanity_occursIn : occursIn "abc".toList "xxabcy".toList = true := by decide

/-- Sanity: the repeated-character regex is case sensitive. -/
theorem sanity_repeated_case_sensitive : hasRepeated "aAa".toList = false := by decide

/-- Sanity: three equal consecutive characters fire the repeated check. -/
theorem sanity_repeated_fires : hasRepeated "xaaab".toList = true := by decide

/-- Sanity: the common-password comparison is on the lower-cased password. -/
theorem sanity_common_lowercased : is_common "PassWord".toList = true := by decide

/-- Sanity: evaluating a fully compliant password gives Strong. -/
theorem sanity_strong_example :
    (check_password_strength "Ab1!Cd2@Ef3#".toList).strength = "Strong" := by decide

/-- Sanity: a compliant password with a sequential window drops to Moderate. -/
theorem sanity_moderate_example :
    (check_password_strength "Abcdef12345!".toList).strength = "Moderate" := by decide

/-! ## Claims -/

/-- C2: a password whose lower-casing exactly equals one of the fixed common
passwords gets `not_common = Fail`, its raw score forced to 0 regardless of
prior additions, and the common-password feedback appended; every other
password gets `not_common = Pass`; for the exact input `"password"` the
normalized score is 0 and the strength is Weak. -/
theorem C2_common_password_override :
    (∀ p : List Char,
      (check_password_strength p).not_common = false ↔ lowerStr p ∈ common_passwords) ∧
    (∀ p : List Char, lowerStr p ∈ common_passwords →
      raw_score2 p = 0 ∧ msg_common ∈ (check_password_strength p).feedback) ∧
    (check_password_strength "password".toList).normalized_score = 0 ∧
    (check_password_strength "password".toList).strength = "Weak" ∧
    (check_password_strength "password".toList).not_common = false := by
  refine ⟨?_, ?_, by decide, by decide, by decide⟩
  · intro p
    simp [check_password_strength, is_common]
  · intro p hp
    have hc : is_common p = true := by simpa [is_common] using hp
    constructor
    · simp [raw_score2, hc]
    · have h := (feedback_facts p).2.2.1.mpr hc
      simpa [check_password_strength] using h

/-- Witness for C2, at the concrete input `"password"`. -/
theorem C2_common_password_override_witness :
    raw_score2 "password".toList = 0 ∧
    msg_common ∈ (check_password_strength "password".toList).feedback :=
  C2_common_password_override.2.1 ("password".toList) (by decide)

/-- C3: a password of length at least 12 containing an uppercase letter, a
lowercase letter, a digit and a special character, with no three-in-a-row
repeat, no sequential window, and not in the common list, scores raw `4.0`
(so `raw_score2 / 2 = 4`), normalized `100`, strength `"Strong"`. -/
theorem C3_strong_requirements (p : List Char)
    (hlen : 12 ≤ p.length) (hu : hasUpper p = true) (hl : hasLower p = true)
    (hd : hasDigit p = true) (hs : hasSpecial p = true)
    (hrep : hasRepeated p = false) (hseq : hasSequential p = false)
    (hcommon : lowerStr p ∉ common_passwords) :
    (raw_score2 p : ℚ) / 2 = 4 ∧
    (check_password_strength p).normalized_score = 100 ∧
    (check_password_strength p).strength = "Strong" := by
  have hc : is_common p = false := by simpa [is_common] using hcommon
  have h8 : raw_score2 p = 8 := by
    simp [raw_score2, score2_before_common, length_score2, case_ok, hu, hl, hd,
      hs, hrep, hseq, hlen, hc]
  have htop : clamped_score2 p = 8 := by simp [clamped_score2, h8]
  refine ⟨by rw [h8]; norm_num, ?_, ?_⟩
  · simpa [check_password_strength] using (normalized_100_iff p).mpr htop
  · simpa [check_password_strength] using (strength_strong_iff p).mpr (by simp [htop])

/-- Witness for C3, at the concrete input `"Ab1!Cd2@Ef3#"`. -/
theorem C3_strong_requirements_witness :
    (raw_score2 "Ab1!Cd2@Ef3#".toList : ℚ) / 2 = 4 ∧
    (check_password_strength "Ab1!Cd2@Ef3#".toList).normalized_score = 100 ∧
    (check_password_strength "Ab1!Cd2@Ef3#".toList).strength = "Strong" :=
  C3_strong_requirements ("Ab1!Cd2@Ef3#".toList) (by decide) (by decide) (by decide)
    (by decide) (by decide) (by decide) (by decide) (by decide)

/-- C4: the strength label, color and message are determined by the raw
(pre-normalization, post-clamp) score with exact thresholds: score at least 4
is Strong/green/success, else at least 3 is Moderate/orange/warning, else
Weak/red/error.  The raw score is `clamped_score2 / 2` as a rational. -/
theorem C4_classification_thresholds (p : List Char) :
    ((check_password_strength p).strength,
      (check_password_strength p).color,
      (check_password_strength p).message) =
      (if 4 ≤ (clamped_score2 p : ℚ) / 2 then ("Strong", "green", msg_strong)
       else if 3 ≤ (clamped_score2 p : ℚ) / 2 then ("Moderate", "orange", msg_moderate)
       else ("Weak", "red", msg_weak)) := by
  have h4 : ((4 : ℚ) ≤ (clamped_score2 p : ℚ) / 2) ↔ 8 ≤ clamped_score2 p := by
    rw [le_div_iff₀ (by norm_num : (0 : ℚ) < 2)]
    constructor
    · intro hq
      exact_mod_cast (by linarith : (8 : ℚ) ≤ (clamped_score2 p : ℚ))
    · intro hq
      have hq2 : (8 : ℚ) ≤ (clamped_score2 p : ℚ) := by exact_mod_cast hq
      linarith
  have h3 : ((3 : ℚ) ≤ (clamped_score2 p : ℚ) / 2) ↔ 6 ≤ clamped_score2 p := by
    rw [le_div_iff₀ (by norm_num : (0 : ℚ) < 2)]
    constructor
    · intro hq
      exact_mod_cast (by linarith : (6 : ℚ) ≤ (clamped_score2 p : ℚ))
    · intro hq
      have hq2 : (6 : ℚ) ≤ (clamped_score2 p : ℚ) := by exact_mod_cast hq
      linarith
  by_cases h8 : 8 ≤ clamped_score2 p <;> by_cases h6 : 6 ≤ clamped_score2 p <;>
    simp [check_password_strength, strength_of, color_of, message_of, h4, h3, h8, h6]

/-- C7: the normalized score equals `min(floor(raw_score * 25), 100)` computed
from the clamped raw score (`clamped_score2 / 2` as a rational), and is at
most 100 (it is a `Nat`, hence at least 0). -/
theorem C7_normalization (p : List Char) :
    ((check_password_strength p).normalized_score : ℤ) =
      min ⌊(clamped_score2 p : ℚ) / 2 * 25⌋ 100 ∧
    (check_password_strength p).normalized_score ≤ 100 := by
  have h := clamped_score2_bounds p
  have key : ∀ n : ℤ, 0 ≤ n → n ≤ 8 →
      ((min (n.toNat * 25 / 2) 100 : Nat) : ℤ) = min ⌊(n : ℚ) / 2 * 25⌋ 100 := by
    intro n h0 h8
    interval_cases n <;> norm_num
  constructor
  · show ((normalized_of p : Nat) : ℤ) = _
    unfold normalized_of
    exact key (clamped_score2 p) h.1 h.2
  · show normalized_of p ≤ 100
    exact min_le_right _ _

/-- C9: evaluation is deterministic — it is a pure function of the password
string, so equal inputs give results identical in every component. -/
theorem C9_deterministic (p q : List Char) (h : p = q) :
    check_password_strength p = check_password_strength q := by rw [h]

/-- Witness for C9, at the concrete input `"Abc123"`. -/
theorem C9_deterministic_witness :
    check_password_strength "Abc123".toList = check_password_strength "Abc123".toList :=
  C9_deterministic ("Abc123".toList) ("Abc123".toList) rfl

/-- C6: `no_patterns` fails exactly when the sequential-window check or the
repeated-character check fires; each fired sub-check appends its feedback
message and costs `-0.5` (half points: `-1`) in the score accumulation; the
hand-enumerated window list equals the ascending alphabet windows `abc`..`xyz`
together with the ascending digit windows `012`..`890` (wrapping at 8, 9, 0);
the sub-checks are characterised as substring occurrences in the lower-cased
(resp. raw) password. -/
theorem C6_pattern_penalties :
    (∀ p : List Char, (check_password_strength p).no_patterns = false ↔
      (hasSequential p = true ∨ hasRepeated p = true)) ∧
    (∀ p : List Char,
      hasSequential p = true ↔ msg_sequential ∈ (check_password_strength p).feedback) ∧
    (∀ p : List Char,
      hasRepeated p = true ↔ msg_repeated ∈ (check_password_strength p).feedback) ∧
    (∀ p : List Char, score2_before_common p =
      length_score2 p + (if case_ok p then 2 else 0) + (if hasDigit p then 2 else 0)
        + (if hasSpecial p then 2 else 0) - (if hasSequential p then 1 else 0)
        - (if hasRepeated p then 1 else 0)) ∧
    seq_patterns = ascending_letter_windows ++ ascending_digit_windows ∧
    (∀ p : List Char, hasSequential p = true ↔
      ∃ w ∈ seq_patterns, ∃ l r, lowerStr p = l ++ w ++ r) ∧
    (∀ p : List Char, hasRepeated p = true ↔ ∃ c l r, p = l ++ [c, c, c] ++ r) := by
  refine ⟨?_, ?_, ?_, fun p => rfl, by decide, ?_, hasRepeated_iff⟩
  · intro p
    cases hseq : hasSequential p <;> cases hrep : hasRepeated p <;>
      simp [check_password_strength, hseq, hrep]
  · intro p
    simpa [check_password_strength] using ((feedback_facts p).1).symm
  · intro p
    simpa [check_password_strength] using ((feedback_facts p).2.1).symm
  · intro p
    simp [hasSequential, List.any_eq_true, occursIn_iff]

/-- Witness for C6, at the concrete inputs `"abcdef"` (sequential) and
`"xaaab"` (repeated). -/
theorem C6_pattern_penalties_witness :
    msg_sequential ∈ (check_password_strength "abcdef".toList).feedback ∧
    msg_repeated ∈ (check_password_strength "xaaab".toList).feedback :=
  ⟨(C6_pattern_penalties.2.1 ("abcdef".toList)).mp (by decide),
   (C6_pattern_penalties.2.2.1 ("xaaab".toList)).mp (by decide)⟩

/-- C10: for every password, strength `"Strong"`, normalized score `100`, and
empty feedback are three equivalent conditions. -/
theorem C10_strong_100_nofeedback (p : List Char) :
    ((check_password_strength p).strength = "Strong" ↔
      (check_password_strength p).normalized_score = 100) ∧
    ((check_password_strength p).strength = "Strong" ↔
      (check_password_strength p).feedback = []) := by
  have hb := clamped_score2_bounds p
  have e1 : (check_password_strength p).strength = strength_of p := rfl
  have e2 : (check_password_strength p).normalized_score = normalized_of p := rfl
  have e3 : (check_password_strength p).feedback = feedback_of p := rfl
  constructor
  · rw [e1, e2, strength_strong_iff, normalized_100_iff]
    omega
  · rw [e1, e3, strength_strong_iff, (feedback_facts p).2.2.2, ← clamped_top_iff]
    omega

/-- C1: for every requested length and every outcome of the random source, the
special-character generator returns a string of exactly the clamped requested
length containing a lowercase letter, an uppercase letter, a digit and a
special character; the no-special path of `main` (reachable only for slider
lengths, which are at least 8) returns a string of exactly the requested
length containing a lowercase letter, an uppercase letter and a digit. -/
theorem C1_generator_composition :
    (∀ (length : Int) (c1 c2 c3 c4 : Char) (fill out : List Char),
      gen_outcome length c1 c2 c3 c4 fill out →
        out.length = (clamp_length length).toNat ∧
        hasLower out = true ∧ hasUpper out = true ∧ hasDigit out = true ∧
        hasSpecial out = true) ∧
    (∀ (length : Int) (c1 c2 c3 : Char) (fill out : List Char), 8 ≤ length →
      gen_nospecial_outcome length c1 c2 c3 fill out →
        out.length = length.toNat ∧
        hasLower out = true ∧ hasUpper out = true ∧ hasDigit out = true) := by
  constructor
  · rintro length c1 c2 c3 c4 fill out ⟨h1, h2, h3, h4, h5, h6, h7⟩
    have hcl : 8 ≤ clamp_length length := by unfold clamp_length; split_ifs <;> omega
    have hlen : out.length = (clamp_length length).toNat := by
      have hl := h7.length_eq
      simp [List.length_append, h5] at hl
      omega
    exact ⟨hlen,
      List.any_eq_true.mpr ⟨c1, h7.mem_iff.mpr (by simp), lower_pool_ok c1 h1⟩,
      List.any_eq_true.mpr ⟨c2, h7.mem_iff.mpr (by simp), upper_pool_ok c2 h2⟩,
      List.any_eq_true.mpr ⟨c3, h7.mem_iff.mpr (by simp), digit_pool_ok c3 h3⟩,
      List.any_eq_true.mpr ⟨c4, h7.mem_iff.mpr (by simp), special_pool_ok c4 h4⟩⟩
  · rintro length c1 c2 c3 fill out h8 ⟨h1, h2, h3, h5, h6, h7⟩
    have hlen : out.length = length.toNat := by
      have hl := h7.length_eq
      simp [List.length_append, h5] at hl
      omega
    exact ⟨hlen,
      List.any_eq_true.mpr ⟨c1, h7.mem_iff.mpr (by simp), lower_pool_ok c1 h1⟩,
      List.any_eq_true.mpr ⟨c2, h7.mem_iff.mpr (by simp), upper_pool_ok c2 h2⟩,
      List.any_eq_true.mpr ⟨c3, h7.mem_iff.mpr (by simp), digit_pool_ok c3 h3⟩⟩

/-- Witness for C1: a concrete outcome of each generation path. -/
theorem C1_generator_composition_witness :
    ("aA0!bcdefghi".toList.length = (clamp_length 12).toNat ∧
      hasLower "aA0!bcdefghi".toList = true ∧ hasUpper "aA0!bcdefghi".toList = true ∧
      hasDigit "aA0!bcdefghi".toList = true ∧ hasSpecial "aA0!bcdefghi".toList = true) ∧
    ("aA0bcdef".toList.length = (8 : Int).toNat ∧
      hasLower "aA0bcdef".toList = true ∧ hasUpper "aA0bcdef".toList = true ∧
      hasDigit "aA0bcdef".toList = true) :=
  ⟨C1_generator_composition.1 12 'a' 'A' '0' '!' ("bcdefghi".toList)
      ("aA0!bcdefghi".toList) (by decide),
    C1_generator_composition.2 8 'a' 'A' '0' ("bcdef".toList) ("aA0bcdef".toList)
      (by decide) (by decide)⟩

/-- C5 counterexample: with includeSpecial = false the code performs no length
clamp — at requested length 5, a possible outcome of the no-special generation
path is the 5-character string `"aA0bc"`, not a 12-character one. -/
theorem C5_counterexample :
    gen_nospecial_outcome 5 'a' 'A' '0' ("bc".toList) ("aA0bc".toList) ∧
    ¬(("aA0bc".toList).length = 12) := by
  constructor
  · decide
  · decide

/-- C5 (amended): for every requested length < 8, the includeSpecial = true
generator (`generate_strong_password`) forces the length to 12 and every
outcome is a 12-character string; the no-special path performs no clamping. -/
theorem C5_clamp_special_path (length : Int) (c1 c2 c3 c4 : Char)
    (fill out : List Char) (hlen : length < 8)
    (h : gen_outcome length c1 c2 c3 c4 fill out) : out.length = 12 := by
  obtain ⟨-, -, -, -, h5, -, h7⟩ := h
  have hcl : clamp_length length = 12 := by unfold clamp_length; rw [if_pos hlen]
  have hl := h7.length_eq
  simp [List.length_append, h5, hcl] at hl
  omega

/-- Witness for C5 (amended): `generate(5, true)` outcome of length 12. -/
theorem C5_clamp_special_path_witness : ("aA0!bbbbbbbb".toList).length = 12 :=
  C5_clamp_special_path 5 'a' 'A' '0' '!' ("bbbbbbbb".toList)
    ("aA0!bbbbbbbb".toList) (by decide) (by decide)

/-- C8: for every requested length at least 12 with special characters
included, every outcome of the generator — even one whose random fill
produces sequential or repeated patterns — evaluates to strength Moderate or
Strong, never Weak: the four composition checks and the length check are
guaranteed, the output cannot be a common password (it contains a special
character), and the two penalties cost at most `1.0` in total. -/
theorem C8_roundtrip_at_least_moderate (length : Int) (c1 c2 c3 c4 : Char)
    (fill out : List Char) (hlen : 12 ≤ length)
    (h : gen_outcome length c1 c2 c3 c4 fill out) :
    (check_password_strength out).strength = "Moderate" ∨
    (check_password_strength out).strength = "Strong" := by
  obtain ⟨h1, h2, h3, h4, h5, h6, h7⟩ := h
  have hout : 12 ≤ out.length := by
    have hl := h7.length_eq
    simp [List.length_append, h5] at hl
    unfold clamp_length at hl
    split_ifs at hl <;> omega
  have hlow : hasLower out = true :=
    List.any_eq_true.mpr ⟨c1, h7.mem_iff.mpr (by simp), lower_pool_ok c1 h1⟩
  have hup : hasUpper out = true :=
    List.any_eq_true.mpr ⟨c2, h7.mem_iff.mpr (by simp), upper_pool_ok c2 h2⟩
  have hdig : hasDigit out = true :=
    List.any_eq_true.mpr ⟨c3, h7.mem_iff.mpr (by simp), digit_pool_ok c3 h3⟩
  have hsp : hasSpecial out = true :=
    List.any_eq_true.mpr ⟨c4, h7.mem_iff.mpr (by simp), special_pool_ok c4 h4⟩
  have hc4 : c4 ∈ lowerStr out := by
    have hm : c4 ∈ out := h7.mem_iff.mpr (by simp)
    have hmap : pyToLower c4 ∈ lowerStr out := List.mem_map_of_mem pyToLower hm
    rwa [special_lower_fixed c4 h4] at hmap
  have hnc : is_common out = false := by
    have hnm : lowerStr out ∉ common_passwords := fun hmem =>
      special_not_in_common c4 h4 (lowerStr out) hmem hc4
    simpa [is_common] using hnm
  have hscore : 6 ≤ score2_before_common out := by
    unfold score2_before_common length_score2 case_ok
    simp [hlow, hup, hdig, hsp, hout]
    split_ifs <;> omega
  have h6c : 6 ≤ clamped_score2 out := by
    unfold clamped_score2 raw_score2
    rw [hnc]
    simp only [Bool.false_eq_true, if_false]
    omega
  by_cases h8 : 8 ≤ clamped_score2 out
  · right
    simpa [check_password_strength] using (strength_strong_iff out).mpr h8
  · left
    have hm : strength_of out = "Moderate" := by
      unfold strength_of
      rw [if_neg h8, if_pos h6c]
    simpa [check_password_strength] using hm

/-- Witness for C8: a concrete length-12 outcome (with a repeated-character
run in the fill) still evaluates to Moderate or Strong. -/
theorem C8_roundtrip_at_least_moderate_witness :
    (check_password_strength "aA0!bbbbbbbb".toList).strength = "Moderate" ∨
    (check_password_strength "aA0!bbbbbbbb".toList).strength = "Strong" :=
  C8_roundtrip_at_least_moderate 12 'a' 'A' '0' '!' ("bbbbbbbb".toList)
    ("aA0!bbbbbbbb".toList) (by decide) (by decide)

/-- Witness for C4, at the concrete input `"Xy7!"`. -/
theorem C4_classification_thresholds_witness :
    ((check_password_strength "Xy7!".toList).strength,
      (check_password_strength "Xy7!".toList).color,
      (check_password_strength "Xy7!".toList).message) =
      (if 4 ≤ (clamped_score2 "Xy7!".toList : ℚ) / 2 then ("Strong", "green", msg_strong)
       else if 3 ≤ (clamped_score2 "Xy7!".toList : ℚ) / 2 then
         ("Moderate", "orange", msg_moderate)
       else ("Weak", "red", msg_weak)) :=
  C4_classification_thresholds ("Xy7!".toList)

/-- Witness for C7, at the concrete input `"Abc12!"`. -/
theorem C7_normalization_witness :
    ((check_password_strength "Abc12!".toList).normalized_score : ℤ) =
      min ⌊(clamped_score2 "Abc12!".toList : ℚ) / 2 * 25⌋ 100 ∧
    (check_password_strength "Abc12!".toList).normalized_score ≤ 100 :=
  C7_normalization ("Abc12!".toList)

/-- Witness for C10, at the concrete input `"Qw3@Meter"`. -/
theorem C10_strong_100_nofeedback_witness :
    ((check_password_strength "Qw3@Meter".toList).strength = "Strong" ↔
      (check_password_strength "Qw3@Meter".toList).normalized_score = 100) ∧
    ((check_password_strength "Qw3@Meter".toList).strength = "Strong" ↔
      (check_password_strength "Qw3@Meter".toList).feedback = []) :=
  C10_strong_100_nofeedback ("Qw3@Meter".toList)

end PasswordMeter
